import Mathlib

/-!
Verification of `src/scripts/config.py` (AGPT).

The store model: `python-dotenv`'s `dotenv_values` returns a `dict` mapping
keys to string values, insertion-ordered with unique keys.  We embed such a
dict as an association list `Store`; the dict invariant (unique keys) appears
as a `Nodup` hypothesis on the theorems that rely on it.  Values that are
`None` in dotenv (lines without `=`) are outside the flat `KEY=VALUE` format
this program manipulates, so values are plain strings.

`set_key file k v` (dotenv, `quote_mode="never"`) rewrites the first line
holding `k`, or appends a new line, and saves the file immediately;
`unset_key file k` drops the line for `k` and saves immediately.  Because each
call performs its own file write, the merge loop of
`Config.update_env_from_template` produces one on-disk state per key; the
`List Store` component below records the file content after each such write.
-/

abbrev Store := List (String × String)

/-- Python `str.lower()`, ASCII range (the prompts compare against `"y"`/`"True"`,
all ASCII). Char-list implementation so that concrete instances reduce. -/
def pyLower (s : String) : String := String.mk (s.data.map Char.toLower)

/-- Python `str.strip()` with no argument: remove leading and trailing
whitespace (space, tab, CR, LF — the characters that occur in console input). -/
def pyStrip (s : String) : String :=
  String.mk (((s.data.dropWhile Char.isWhitespace).reverse.dropWhile Char.isWhitespace).reverse)

/-- First value stored under `k` (dict lookup; unique keys make "first" exact). -/
def getValue? : Store → String → Option String
  | [], _ => none
  | kv :: rest, k => if kv.1 = k then some kv.2 else getValue? rest k

/-- Python `d.get(k, default)`. -/
def getValueD (s : Store) (k d : String) : String := (getValue? s k).getD d

/-- Python `k in d`. -/
def containsKey (s : Store) (k : String) : Bool := s.any (fun kv => kv.1 == k)

/-- dotenv `set_key`: replace the first entry for `k`, else append. -/
def set_key : Store → String → String → Store
  | [], k, v => [(k, v)]
  | kv :: rest, k, v => if kv.1 = k then (k, v) :: rest else kv :: set_key rest k v

/-- dotenv `unset_key`: drop the entry for `k`. -/
def unset_key (s : Store) (k : String) : Store := s.filter (fun kv => kv.1 != k)

/-- config.py line 58: `[key for key in env_values if key not in template_values]`. -/
def removed_keys (env_values template_values : Store) : List String :=
  (env_values.map Prod.fst).filter (fun key => !containsKey template_values key)

/-- config.py lines 60-61: `{key: value for key, value in template_values.items()
if env_values.get(key, '') == '' and value != ''}`. -/
def changes (env_values template_values : Store) : Store :=
  template_values.filter (fun kv => (getValueD env_values kv.1 "" == "") && (kv.2 != ""))

/-- config.py lines 76-83: the per-addition loop.  `resp key` is the operator's
typed reply to `input(f"{key} ({value}): ")`; a reply with non-whitespace
content is written verbatim, otherwise the template default is written.  Each
`set_key` saves the file, so the second component records the file content
after each write. -/
def applyChangesTrace : Store → Store → (String → String) → Store × List Store
  | env, [], _ => (env, [])
  | env, kv :: rest, resp =>
    let new_value := resp kv.1
    let s1 := if pyStrip new_value != "" then set_key env kv.1 new_value
              else set_key env kv.1 kv.2
    let r := applyChangesTrace s1 rest resp
    (r.1, s1 :: r.2)

/-- config.py lines 84-86: the removal loop; one `unset_key` (and file write)
per removed key. -/
def applyRemovalsTrace : Store → List String → Store × List Store
  | env, [] => (env, [])
  | env, k :: rest =>
    let s1 := unset_key env k
    let r := applyRemovalsTrace s1 rest
    (r.1, s1 :: r.2)

/-- config.py lines 53-88, the reconciliation core once both files exist:
compute `removed_keys` and `changes`; if either is non-empty ask
`"Do you want to apply changes to .env? (y/n) "` (reply `approve`, affirmative
iff `approve.lower() == "y"`); when approved run the addition loop then the
removal loop.  Returns the final store content and the list of intermediate
file states, one per `set_key`/`unset_key` write. -/
def update_env_from_template (template_values env_values : Store) (approve : String)
    (resp : String → String) : Store × List Store :=
  let rk := removed_keys env_values template_values
  let ch := changes env_values template_values
  if ch.isEmpty && rk.isEmpty then (env_values, [])
  else if pyLower approve == "y" then
    let r1 := applyChangesTrace env_values ch resp
    let r2 := applyRemovalsTrace r1.1 rk
    (r2.1, r1.2 ++ r2.2)
  else (env_values, [])

/-- Number of `input(...)` prompts issued by the lines-53-88 core: none when the
diff is empty; the approval prompt alone when declined; the approval prompt
plus one value prompt per addition when approved. -/
def promptCount (template_values env_values : Store) (approve : String) : Nat :=
  let rk := removed_keys env_values template_values
  let ch := changes env_values template_values
  if ch.isEmpty && rk.isEmpty then 0
  else if pyLower approve == "y" then 1 + ch.length
  else 1

example : changes [] [("A", "1"), ("B", "")] = [("A", "1")] := by decide
example : removed_keys [("C", "x")] [("A", "1")] = ["C"] := by decide
example : update_env_from_template [("A", "1")] [("A", ""), ("B", "x")] "y" (fun _ => "")
    = ([("A", "1")], [[("A", "1"), ("B", "x")], [("A", "1")]]) := by decide
example : update_env_from_template [("A", "1")] [("A", ""), ("B", "x")] "N" (fun _ => "")
    = ([("A", ""), ("B", "x")], []) := by decide

/-- Python `int(str)`: optional surrounding whitespace, an optional sign, then
decimal digits; any other shape raises `ValueError`, modelled as `none`.
(CPython also accepts digit-group underscores and non-ASCII digits; those never
occur in this configuration format and are not modelled.) -/
def pyInt (s : String) : Option Int :=
  match (pyStrip s).data with
  | [] => none
  | c :: rest =>
    let neg := c = '-'
    let mag := if c = '-' ∨ c = '+' then rest else c :: rest
    if mag ≠ [] ∧ mag.all Char.isDigit then
      let n : Nat := mag.foldl (fun acc ch => 10 * acc + (ch.toNat - 48)) 0
      some (if neg then -(n : Int) else (n : Int))
    else none

/-- The process environment visible to `os.getenv` at config.py line 99:
the variables present at interpreter start, merged (without override, line 7
and line 53 both use `load_dotenv`) with the `.env` and `.env.template`
contents.  `none` models an unset variable. -/
abbrev PEnv := String → Option String

/-- The attribute set written by `Config.__init__` (config.py lines 91-141).
Fields of type `Option (Option String)` model conditionally assigned
attributes: the outer `none` means `__init__` never executed an assignment to
that attribute, so reading it raises `AttributeError`; `some v` means the
attribute was assigned `os.getenv(...)`'s result `v`. -/
structure Config where
  debug_mode : Bool
  continuous_mode : Bool
  speak_mode : Bool
  fast_llm_model : String
  smart_llm_model : String
  fast_token_limit : Int
  smart_token_limit : Int
  openai_api_key : Option String
  use_azure : Bool
  openai_api_base : Option (Option String)
  openai_api_version : Option (Option String)
  openai_deployment_id : Option (Option String)
  elevenlabs_api_key : Option String
  use_mac_os_tts : Option String
  google_api_key : Option String
  custom_search_engine_id : Option String
  pinecone_api_key : Option String
  pinecone_region : Option String
  image_provider : Option String
  huggingface_api_token : Option String
  user_agent_header : List (String × String)
  redis_host : String
  redis_port : String
  redis_password : String
  wipe_redis_on_start : Bool
  memory_index : String
  memory_backend : String
  deriving DecidableEq, Repr

/-- config.py lines 93-141, the field population of `Config.__init__` after
`update_env_from_template` returned.  `int(os.getenv("FAST_TOKEN_LIMIT", 4000))`
(line 101) and the SMART analogue (line 102) raise `ValueError` on a stored
string that does not parse; a raise aborts construction, modelled as `none`.
Line 117 assigns `use_mac_os_tts = False` but line 118 immediately overwrites
it with the raw `os.getenv("USE_MAC_OS_TTS")` result, so the field holds an
optional string, not a boolean. -/
def configInit (env : PEnv) : Option Config :=
  match pyInt ((env "FAST_TOKEN_LIMIT").getD "4000") with
  | none => none
  | some fast_token_limit =>
  match pyInt ((env "SMART_TOKEN_LIMIT").getD "8000") with
  | none => none
  | some smart_token_limit =>
  some {
    debug_mode := false
    continuous_mode := false
    speak_mode := false
    fast_llm_model := (env "FAST_LLM_MODEL").getD "gpt-3.5-turbo"
    smart_llm_model := (env "SMART_LLM_MODEL").getD "gpt-4"
    fast_token_limit := fast_token_limit
    smart_token_limit := smart_token_limit
    openai_api_key := env "OPENAI_API_KEY"
    use_azure := env "USE_AZURE" == some "True"
    openai_api_base :=
      if env "USE_AZURE" == some "True" then some (env "OPENAI_AZURE_API_BASE") else none
    openai_api_version :=
      if env "USE_AZURE" == some "True" then some (env "OPENAI_AZURE_API_VERSION") else none
    openai_deployment_id :=
      if env "USE_AZURE" == some "True" then some (env "OPENAI_AZURE_DEPLOYMENT_ID") else none
    elevenlabs_api_key := env "ELEVENLABS_API_KEY"
    use_mac_os_tts := env "USE_MAC_OS_TTS"
    google_api_key := env "GOOGLE_API_KEY"
    custom_search_engine_id := env "CUSTOM_SEARCH_ENGINE_ID"
    pinecone_api_key := env "PINECONE_API_KEY"
    pinecone_region := env "PINECONE_ENV"
    image_provider := env "IMAGE_PROVIDER"
    huggingface_api_token := env "HUGGINGFACE_API_TOKEN"
    user_agent_header :=
      [("User-Agent", "Mozilla/5.0 (Macintosh; Intel Mac OS X 10_15_4) AppleWebKit/537.36 (KHTML, like Gecko) Chrome/83.0.4103.97 Safari/537.36")]
    redis_host := (env "REDIS_HOST").getD "localhost"
    redis_port := (env "REDIS_PORT").getD "6379"
    redis_password := (env "REDIS_PASSWORD").getD ""
    wipe_redis_on_start := (env "WIPE_REDIS_ON_START").getD "True" == "True"
    memory_index := (env "MEMORY_INDEX").getD "auto-gpt"
    memory_backend := (env "MEMORY_BACKEND").getD "local"
  }

/-- config.py lines 35-88 including the file-existence preamble.  A missing
template file prints an error and returns (lines 41-43); a missing `.env` file
asks `"Create an empty file? (y/n) "` — accepting touches an empty file and
proceeds, declining prints an error and returns with no `.env` file on disk
(lines 45-51).  No path raises.  First component: the `.env` file content
afterwards (`none` = file absent); second: the intermediate merge-write states. -/
def update_env_checked (templateExists : Bool) (template_values : Store)
    (envFile : Option Store) (createAnswer approve : String) (resp : String → String) :
    Option Store × List Store :=
  if templateExists = false then (envFile, [])
  else
    match envFile with
    | none =>
      if pyLower createAnswer == "y" then
        let r := update_env_from_template template_values [] approve resp
        (some r.1, r.2)
      else (none, [])
    | some env_values =>
      let r := update_env_from_template template_values env_values approve resp
      (some r.1, r.2)

/-- config.py lines 91-141 `Config.__init__`: runs `update_env_from_template`
— whose error paths print and `return`, they do not raise — and then
unconditionally populates every typed field from `os.getenv`.  `procEnv` is the
process environment at line 99.  Result `none` exactly when `int(...)` raises
at line 101 or 102; otherwise the constructed instance together with the
`.env` file content left on disk. -/
def config_init (templateExists : Bool) (template_values : Store) (envFile : Option Store)
    (createAnswer approve : String) (resp : String → String) (procEnv : PEnv) :
    Option (Config × Option Store) :=
  let r := update_env_checked templateExists template_values envFile createAnswer approve resp
  (configInit procEnv).map (fun c => (c, r.1))

example : pyInt "4000" = some 4000 := by decide
example : pyInt " -12 " = some (-12) := by decide
example : pyInt "abc" = none := by decide
example : pyInt "" = none := by decide
example : (configInit (fun _ => none)).map (fun c => c.fast_token_limit) = some 4000 := by decide

theorem getValue?_set_key_self (s : Store) (k v : String) :
    getValue? (set_key s k v) k = some v := by
  induction s with
  | nil => simp [set_key, getValue?]
  | cons kv rest ih =>
    obtain ⟨a, b⟩ := kv
    by_cases h : a = k
    · simp [set_key, h, getValue?]
    · simp [set_key, h, getValue?, ih]

theorem getValue?_set_key_ne (s : Store) {j k : String} (h : j ≠ k) (v : String) :
    getValue? (set_key s j v) k = getValue? s k := by
  induction s with
  | nil => simp [set_key, getValue?, h]
  | cons kv rest ih =>
    obtain ⟨a, b⟩ := kv
    by_cases h2 : a = j
    · simp [set_key, h2, getValue?, h]
    · simp [set_key, h2, getValue?, ih]

theorem getValue?_unset_key_self (s : Store) (k : String) :
    getValue? (unset_key s k) k = none := by
  induction s with
  | nil => simp [unset_key, getValue?]
  | cons kv rest ih =>
    obtain ⟨a, b⟩ := kv
    rw [unset_key, List.filter_cons]
    by_cases h : a = k
    · have hc : (((a, b).1 != k) = true) = False := by simp [h]
      rw [if_neg (by simp [h])]
      exact ih
    · rw [if_pos (by simpa using h)]
      simp only [getValue?, if_neg h]
      exact ih

theorem getValue?_unset_key_ne (s : Store) {j k : String} (h : j ≠ k) :
    getValue? (unset_key s j) k = getValue? s k := by
  induction s with
  | nil => simp [unset_key, getValue?]
  | cons kv rest ih =>
    obtain ⟨a, b⟩ := kv
    rw [unset_key, List.filter_cons]
    by_cases h2 : a = j
    · rw [if_neg (by simp [h2])]
      simp only [getValue?]
      rw [if_neg (by rw [h2]; exact h)]
      exact ih
    · rw [if_pos (by simpa using h2)]
      simp only [getValue?]
      by_cases h3 : a = k
      · simp [h3]
      · simp only [if_neg h3]
        exact ih

theorem getValue?_isSome_iff_mem_keys (s : Store) (k : String) :
    (getValue? s k).isSome ↔ k ∈ s.map Prod.fst := by
  induction s with
  | nil => simp [getValue?]
  | cons kv rest ih =>
    obtain ⟨a, b⟩ := kv
    by_cases h : a = k
    · simp [getValue?, h]
    · simp [getValue?, h, ih, Ne.symm h]

theorem containsKey_iff_mem_keys (s : Store) (k : String) :
    containsKey s k = true ↔ k ∈ s.map Prod.fst := by
  simp only [containsKey, List.any_eq_true, List.mem_map, beq_iff_eq]

theorem mem_keys_iff_exists (s : Store) (k : String) :
    k ∈ s.map Prod.fst ↔ ∃ v, (k, v) ∈ s := by
  constructor
  · intro h
    rcases List.mem_map.mp h with ⟨⟨a, b⟩, hm, rfl⟩
    exact ⟨b, hm⟩
  · rintro ⟨v, hv⟩
    exact List.mem_map.mpr ⟨(k, v), hv, rfl⟩

theorem getValue?_eq_some_iff_mem (s : Store) (hnd : (s.map Prod.fst).Nodup) (k v : String) :
    getValue? s k = some v ↔ (k, v) ∈ s := by
  induction s with
  | nil => simp [getValue?]
  | cons kv rest ih =>
    obtain ⟨a, b⟩ := kv
    simp only [List.map_cons, List.nodup_cons] at hnd
    by_cases h : a = k
    · subst h
      have hg : getValue? ((a, b) :: rest) a = some b := by simp [getValue?]
      rw [hg]
      simp only [Option.some.injEq, List.mem_cons, Prod.mk.injEq]
      constructor
      · rintro rfl; exact Or.inl ⟨trivial, rfl⟩
      · rintro (⟨-, rfl⟩ | hm)
        · rfl
        · exact absurd ((mem_keys_iff_exists rest a).mpr ⟨v, hm⟩) hnd.1
    · simp only [getValue?, if_neg h, List.mem_cons, Prod.mk.injEq]
      rw [ih hnd.2]
      constructor
      · exact Or.inr
      · rintro (⟨rfl, -⟩ | hm)
        · exact absurd rfl h
        · exact hm

theorem getValueD_empty_iff (s : Store) (k : String) :
    getValueD s k "" = "" ↔ getValue? s k = none ∨ getValue? s k = some "" := by
  cases h : getValue? s k <;> simp [getValueD, h]

theorem mem_changes_iff (env_values template_values : Store) (k v : String) :
    (k, v) ∈ changes env_values template_values
      ↔ (k, v) ∈ template_values ∧ getValueD env_values k "" = "" ∧ v ≠ "" := by
  simp [changes, List.mem_filter, -ne_eq]

theorem mem_removed_keys_iff (env_values template_values : Store) (k : String) :
    k ∈ removed_keys env_values template_values
      ↔ k ∈ env_values.map Prod.fst ∧ containsKey template_values k = false := by
  simp [removed_keys, List.mem_filter]

theorem changes_keys_sublist (env_values template_values : Store) :
    ((changes env_values template_values).map Prod.fst).Sublist (template_values.map Prod.fst) :=
  (List.filter_sublist _).map _

theorem applyChangesTrace_fst_not_mem (ch : Store) (resp : String → String) (env : Store)
    (k : String) (h : k ∉ ch.map Prod.fst) :
    getValue? (applyChangesTrace env ch resp).1 k = getValue? env k := by
  induction ch generalizing env with
  | nil => rfl
  | cons kv rest ih =>
    obtain ⟨a, b⟩ := kv
    simp only [List.map_cons, List.mem_cons, not_or] at h
    simp only [applyChangesTrace]
    rw [ih _ h.2]
    split <;> exact getValue?_set_key_ne env (fun hh => h.1 hh.symm) _

theorem applyChangesTrace_fst_mem (ch : Store) (resp : String → String) (env : Store)
    (hnd : (ch.map Prod.fst).Nodup) (k v : String) (hmem : (k, v) ∈ ch) :
    getValue? (applyChangesTrace env ch resp).1 k
      = some (if pyStrip (resp k) != "" then resp k else v) := by
  induction ch generalizing env with
  | nil => cases hmem
  | cons kv rest ih =>
    obtain ⟨a, b⟩ := kv
    simp only [List.map_cons, List.nodup_cons] at hnd
    rcases List.mem_cons.mp hmem with heq | hmem2
    · cases heq
      simp only [applyChangesTrace]
      rw [applyChangesTrace_fst_not_mem rest resp _ k hnd.1]
      split
      · exact getValue?_set_key_self env k (resp k)
      · exact getValue?_set_key_self env k v
    · have hk : k ∈ rest.map Prod.fst := (mem_keys_iff_exists rest k).mpr ⟨v, hmem2⟩
      simp only [applyChangesTrace]
      exact ih _ hnd.2 hmem2

theorem applyRemovalsTrace_fst_not_mem (rk : List String) (env : Store) (k : String)
    (h : k ∉ rk) :
    getValue? (applyRemovalsTrace env rk).1 k = getValue? env k := by
  induction rk generalizing env with
  | nil => rfl
  | cons a rest ih =>
    simp only [List.mem_cons, not_or] at h
    simp only [applyRemovalsTrace]
    rw [ih _ h.2]
    exact getValue?_unset_key_ne env (fun hh => h.1 hh.symm)

theorem applyRemovalsTrace_fst_mem (rk : List String) (env : Store) (k : String)
    (h : k ∈ rk) :
    getValue? (applyRemovalsTrace env rk).1 k = none := by
  induction rk generalizing env with
  | nil => cases h
  | cons a rest ih =>
    simp only [applyRemovalsTrace]
    by_cases h2 : k ∈ rest
    · exact ih _ h2
    · rcases List.mem_cons.mp h with rfl | hmem
      · rw [applyRemovalsTrace_fst_not_mem rest _ k h2]
        exact getValue?_unset_key_self env k
      · exact absurd hmem h2

theorem applyChangesTrace_snd_length (ch : Store) (resp : String → String) (env : Store) :
    (applyChangesTrace env ch resp).2.length = ch.length := by
  induction ch generalizing env with
  | nil => rfl
  | cons kv rest ih => simp only [applyChangesTrace, List.length_cons, ih]

theorem applyRemovalsTrace_snd_length (rk : List String) (env : Store) :
    (applyRemovalsTrace env rk).2.length = rk.length := by
  induction rk generalizing env with
  | nil => rfl
  | cons a rest ih => simp only [applyRemovalsTrace, List.length_cons, ih]

theorem applyChangesTrace_snd_getLastD (ch : Store) (resp : String → String) (env : Store) :
    (applyChangesTrace env ch resp).2.getLastD env = (applyChangesTrace env ch resp).1 := by
  induction ch generalizing env with
  | nil => rfl
  | cons kv rest ih =>
    simp only [applyChangesTrace, List.getLastD_cons]
    exact ih _

theorem applyRemovalsTrace_snd_getLastD (rk : List String) (env : Store) :
    (applyRemovalsTrace env rk).2.getLastD env = (applyRemovalsTrace env rk).1 := by
  induction rk generalizing env with
  | nil => rfl
  | cons a rest ih =>
    simp only [applyRemovalsTrace, List.getLastD_cons]
    exact ih _

theorem listGetLastD_append {α : Type} (l1 l2 : List α) (d : α) :
    (l1 ++ l2).getLastD d = l2.getLastD (l1.getLastD d) := by
  induction l1 generalizing d with
  | nil => rfl
  | cons a l1 ih => simp only [List.cons_append, List.getLastD_cons, ih]

theorem pyStrip_empty : pyStrip "" = "" := rfl

/-- Spec §3 `additions` wording, written from the spec for comparison with the
code-derived `changes`: keys present in T with a non-empty default value,
where S has no entry or an empty entry for that key. -/
def additionSpec (template_values env_values : Store) (k : String) : Prop :=
  ∃ d, getValue? template_values k = some d ∧ d ≠ "" ∧
    (getValue? env_values k = none ∨ getValue? env_values k = some "")

/-- Spec §3 `removals` wording, written from the spec for comparison with the
code-derived `removed_keys`: keys present in S that do not appear in T at all. -/
def removalSpec (template_values env_values : Store) (k : String) : Prop :=
  (∃ v, getValue? env_values k = some v) ∧ getValue? template_values k = none

/-- C1: for every template `T` and live store `S` (dicts, so keys are unique),
the reconciliation diff is exactly the spec's: the keys of `changes` are
precisely the keys of `T` with a non-empty default whose entry in `S` is
missing or empty; `removed_keys` are precisely the keys of `S` absent from
`T`; and a key whose template default is the empty string is never an
addition. -/
theorem C1_diff_exact (template_values env_values : Store) (k : String)
    (hT : (template_values.map Prod.fst).Nodup) :
    (k ∈ (changes env_values template_values).map Prod.fst
        ↔ additionSpec template_values env_values k)
  ∧ (k ∈ removed_keys env_values template_values
        ↔ removalSpec template_values env_values k)
  ∧ (getValue? template_values k = some "" →
        k ∉ (changes env_values template_values).map Prod.fst) := by
  have hadd : k ∈ (changes env_values template_values).map Prod.fst
      ↔ additionSpec template_values env_values k := by
    rw [mem_keys_iff_exists]
    constructor
    · rintro ⟨v, hv⟩
      rw [mem_changes_iff] at hv
      exact ⟨v, (getValue?_eq_some_iff_mem _ hT _ _).mpr hv.1, hv.2.2,
        (getValueD_empty_iff _ _).mp hv.2.1⟩
    · rintro ⟨d, hd, hdne, hempty⟩
      exact ⟨d, (mem_changes_iff _ _ _ _).mpr
        ⟨(getValue?_eq_some_iff_mem _ hT _ _).mp hd,
         (getValueD_empty_iff _ _).mpr hempty, hdne⟩⟩
  refine ⟨hadd, ?_, ?_⟩
  · rw [mem_removed_keys_iff]
    unfold removalSpec
    constructor
    · rintro ⟨hmem, hnc⟩
      refine ⟨Option.isSome_iff_exists.mp ((getValue?_isSome_iff_mem_keys _ _).mpr hmem), ?_⟩
      cases hg : getValue? template_values k with
      | none => rfl
      | some v =>
        have hm : k ∈ template_values.map Prod.fst :=
          (getValue?_isSome_iff_mem_keys _ _).mp (by simp [hg])
        rw [(containsKey_iff_mem_keys _ _).mpr hm] at hnc
        cases hnc
    · rintro ⟨⟨v, hv⟩, hnone⟩
      refine ⟨(getValue?_isSome_iff_mem_keys _ _).mp (by simp [hv]), ?_⟩
      cases hc : containsKey template_values k
      · rfl
      · have hm := (containsKey_iff_mem_keys _ _).mp hc
        have hsome := (getValue?_isSome_iff_mem_keys _ _).mpr hm
        rw [hnone] at hsome
        cases hsome
  · intro hsome hmem
    rcases hadd.mp hmem with ⟨d, hd, hdne, -⟩
    rw [hsome] at hd
    exact hdne (Option.some.inj hd).symm

theorem C1_witness :
    (("A" : String) ∈ (changes [] [("A", "1")]).map Prod.fst
        ↔ additionSpec [("A", "1")] [] "A")
  ∧ (("A" : String) ∈ removed_keys [] [("A", "1")]
        ↔ removalSpec [("A", "1")] [] "A")
  ∧ (getValue? [("A", "1")] "A" = some "" →
        ("A" : String) ∉ (changes [] [("A", "1")]).map Prod.fst) :=
  C1_diff_exact [("A", "1")] [] "A" (by decide)

/-- C4: declining the whole-merge prompt (any reply whose lowercase form is not
`"y"`) leaves the store exactly as it was and performs no file write, for every
template and store. -/
theorem C4_decline_noop (template_values env_values : Store) (approve : String)
    (resp : String → String) (h : pyLower approve ≠ "y") :
    update_env_from_template template_values env_values approve resp = (env_values, []) := by
  have hb : (pyLower approve == "y") = false := by
    rw [beq_eq_false_iff_ne]; exact h
  simp [update_env_from_template, hb]

theorem C4_witness :
    update_env_from_template [("A", "1")] [] "n" (fun _ => "") = ([], []) :=
  C4_decline_noop [("A", "1")] [] "n" (fun _ => "") (by decide)

/-- C5: a key present in the template whose store value is non-empty keeps
exactly that value through reconciliation, whatever the template default and
whatever the operator answers. -/
theorem C5_no_silent_overwrite (template_values env_values : Store) (approve : String)
    (resp : String → String) (k v : String)
    (hv : getValue? env_values k = some v) (hne : v ≠ "")
    (hk : containsKey template_values k = true) :
    getValue? (update_env_from_template template_values env_values approve resp).1 k
      = some v := by
  have hkch : k ∉ (changes env_values template_values).map Prod.fst := by
    intro hmem
    rcases (mem_keys_iff_exists _ _).mp hmem with ⟨v', hv'⟩
    have h1 := (mem_changes_iff _ _ _ _).mp hv'
    rw [getValueD, hv] at h1
    exact hne h1.2.1
  have hkrk : k ∉ removed_keys env_values template_values := by
    intro hmem
    have h2 := (mem_removed_keys_iff _ _ _).mp hmem
    rw [hk] at h2
    exact absurd h2.2 (by simp)
  simp only [update_env_from_template]
  split
  · exact hv
  · split
    · rw [applyRemovalsTrace_fst_not_mem _ _ _ hkrk,
          applyChangesTrace_fst_not_mem _ _ _ _ hkch]
      exact hv
    · exact hv

theorem C5_witness :
    getValue? (update_env_from_template [("A", "2"), ("B", "3")] [("A", "x")] "y"
      (fun _ => "")).1 "A" = some "x" :=
  C5_no_silent_overwrite [("A", "2"), ("B", "3")] [("A", "x")] "y" (fun _ => "")
    "A" "x" (by decide) (by decide) (by decide)

/-- C10: during an approved merge, each addition key is written with the
operator's reply verbatim (surrounding whitespace preserved, no trimming) when
the reply contains any non-whitespace character, and with the template's
default value when the reply is empty or whitespace-only. -/
theorem C10_replacement_semantics (template_values env_values : Store) (approve : String)
    (resp : String → String) (hT : (template_values.map Prod.fst).Nodup)
    (ha : pyLower approve = "y") (k v : String)
    (hmem : (k, v) ∈ changes env_values template_values) :
    getValue? (update_env_from_template template_values env_values approve resp).1 k
      = some (if pyStrip (resp k) != "" then resp k else v) := by
  have hknd : ((changes env_values template_values).map Prod.fst).Nodup :=
    List.Nodup.sublist (changes_keys_sublist _ _) hT
  have hkT : containsKey template_values k = true := by
    have h1 := (mem_changes_iff _ _ _ _).mp hmem
    exact (containsKey_iff_mem_keys _ _).mpr ((mem_keys_iff_exists _ _).mpr ⟨v, h1.1⟩)
  have hkrk : k ∉ removed_keys env_values template_values := by
    intro hm
    have h2 := (mem_removed_keys_iff _ _ _).mp hm
    rw [hkT] at h2
    exact absurd h2.2 (by simp)
  have hchne : ¬ (((changes env_values template_values).isEmpty
      && (removed_keys env_values template_values).isEmpty) = true) := by
    intro hemp
    simp only [Bool.and_eq_true, List.isEmpty_iff] at hemp
    rw [hemp.1] at hmem
    cases hmem
  simp only [update_env_from_template]
  rw [if_neg hchne, if_pos (show (pyLower approve == "y") = true by simp [ha])]
  rw [applyRemovalsTrace_fst_not_mem _ _ _ hkrk]
  exact applyChangesTrace_fst_mem _ resp _ hknd k v hmem

theorem C10_witness :
    getValue? (update_env_from_template [("A", "1")] [] "y" (fun _ => "  x ")).1 "A"
      = some (if pyStrip "  x " != "" then "  x " else "1") :=
  C10_replacement_semantics [("A", "1")] [] "y" (fun _ => "  x ") (by decide) (by decide)
    "A" "1" (by decide)

theorem update_of_empty_diff (template_values env_values : Store)
    (h1 : changes env_values template_values = [])
    (h2 : removed_keys env_values template_values = [])
    (approve : String) (resp : String → String) :
    update_env_from_template template_values env_values approve resp = (env_values, []) := by
  simp [update_env_from_template, h1, h2]

theorem promptCount_of_empty_diff (template_values env_values : Store)
    (h1 : changes env_values template_values = [])
    (h2 : removed_keys env_values template_values = [])
    (approve : String) :
    promptCount template_values env_values approve = 0 := by
  simp [promptCount, h1, h2]

/-- C3: reconciliation is idempotent: after one approved merge (whatever
values the operator supplies), a second run against the resulting store with
the template unchanged computes an empty diff, issues no prompts, and performs
no writes, whatever the second run's operator replies. -/
theorem C3_idempotent (template_values env_values : Store)
    (hT : (template_values.map Prod.fst).Nodup)
    (approve : String) (resp : String → String) (ha : pyLower approve = "y") :
    changes (update_env_from_template template_values env_values approve resp).1
        template_values = []
  ∧ removed_keys (update_env_from_template template_values env_values approve resp).1
        template_values = []
  ∧ (∀ approve2 resp2,
      update_env_from_template template_values
          (update_env_from_template template_values env_values approve resp).1 approve2 resp2
        = ((update_env_from_template template_values env_values approve resp).1, []))
  ∧ (∀ approve2,
      promptCount template_values
          (update_env_from_template template_values env_values approve resp).1 approve2
        = 0) := by
  have main : changes (update_env_from_template template_values env_values approve resp).1
        template_values = []
      ∧ removed_keys (update_env_from_template template_values env_values approve resp).1
        template_values = [] := by
    by_cases hemp : ((changes env_values template_values).isEmpty
        && (removed_keys env_values template_values).isEmpty) = true
    · have hu : update_env_from_template template_values env_values approve resp
          = (env_values, []) := by
        simp only [update_env_from_template]
        rw [if_pos hemp]
      simp only [Bool.and_eq_true, List.isEmpty_iff] at hemp
      rw [hu]
      exact ⟨hemp.1, hemp.2⟩
    · have hu : (update_env_from_template template_values env_values approve resp).1
          = (applyRemovalsTrace
              (applyChangesTrace env_values (changes env_values template_values) resp).1
              (removed_keys env_values template_values)).1 := by
        simp only [update_env_from_template]
        rw [if_neg hemp, if_pos (show (pyLower approve == "y") = true by simp [ha])]
      rw [hu]
      have hknd : ((changes env_values template_values).map Prod.fst).Nodup :=
        List.Nodup.sublist (changes_keys_sublist _ _) hT
      constructor
      · -- second-run additions are empty
        apply List.filter_eq_nil_iff.mpr
        rintro ⟨k, v⟩ hkv
        intro hp
        simp only [Bool.and_eq_true, beq_iff_eq, bne_iff_ne] at hp
        have hkT : containsKey template_values k = true :=
          (containsKey_iff_mem_keys _ _).mpr ((mem_keys_iff_exists _ _).mpr ⟨v, hkv⟩)
        have hkrk : k ∉ removed_keys env_values template_values := by
          intro hm
          have h2 := (mem_removed_keys_iff _ _ _).mp hm
          rw [hkT] at h2
          exact absurd h2.2 (by simp)
        have hne : getValueD (applyRemovalsTrace
            (applyChangesTrace env_values (changes env_values template_values) resp).1
            (removed_keys env_values template_values)).1 k "" ≠ "" := by
          unfold getValueD
          rw [applyRemovalsTrace_fst_not_mem _ _ _ hkrk]
          by_cases hc : getValueD env_values k "" = ""
          · have hmemch : (k, v) ∈ changes env_values template_values :=
              (mem_changes_iff _ _ _ _).mpr ⟨hkv, hc, hp.2⟩
            rw [applyChangesTrace_fst_mem _ resp _ hknd k v hmemch]
            by_cases hs : (pyStrip (resp k) != "") = true
            · rw [if_pos hs]
              intro hrk
              simp only [Option.getD_some] at hrk
              rw [hrk, pyStrip_empty] at hs
              simp at hs
            · rw [if_neg hs]
              simpa using hp.2
          · have hkch : k ∉ (changes env_values template_values).map Prod.fst := by
              intro hm
              rcases (mem_keys_iff_exists _ _).mp hm with ⟨v', hv'⟩
              exact hc ((mem_changes_iff _ _ _ _).mp hv').2.1
            rw [applyChangesTrace_fst_not_mem _ _ _ _ hkch]
            exact hc
        exact hne hp.1
      · -- second-run removals are empty
        apply List.filter_eq_nil_iff.mpr
        intro k hk
        have hsome : (getValue? (applyRemovalsTrace
            (applyChangesTrace env_values (changes env_values template_values) resp).1
            (removed_keys env_values template_values)).1 k).isSome :=
          (getValue?_isSome_iff_mem_keys _ _).mpr hk
        have hkrk : k ∉ removed_keys env_values template_values := by
          intro hm
          rw [applyRemovalsTrace_fst_mem _ _ _ hm] at hsome
          cases hsome
        have hkT : containsKey template_values k = true := by
          by_cases hch : k ∈ (changes env_values template_values).map Prod.fst
          · exact (containsKey_iff_mem_keys _ _).mpr
              (List.Sublist.subset (changes_keys_sublist _ _) hch)
          · rw [applyRemovalsTrace_fst_not_mem _ _ _ hkrk,
                applyChangesTrace_fst_not_mem _ _ _ _ hch] at hsome
            have hkenv : k ∈ env_values.map Prod.fst :=
              (getValue?_isSome_iff_mem_keys _ _).mp hsome
            cases hc : containsKey template_values k
            · exact absurd ((mem_removed_keys_iff _ _ _).mpr ⟨hkenv, hc⟩) hkrk
            · rfl
        simp [hkT]
  exact ⟨main.1, main.2,
    fun approve2 resp2 => update_of_empty_diff _ _ main.1 main.2 approve2 resp2,
    fun approve2 => promptCount_of_empty_diff _ _ main.1 main.2 approve2⟩

theorem C3_witness :
    changes (update_env_from_template [("A", "1")] [("B", "x")] "y" (fun _ => "")).1
        [("A", "1")] = []
  ∧ removed_keys (update_env_from_template [("A", "1")] [("B", "x")] "y" (fun _ => "")).1
        [("A", "1")] = []
  ∧ (∀ approve2 resp2,
      update_env_from_template [("A", "1")]
          (update_env_from_template [("A", "1")] [("B", "x")] "y" (fun _ => "")).1
          approve2 resp2
        = ((update_env_from_template [("A", "1")] [("B", "x")] "y" (fun _ => "")).1, []))
  ∧ (∀ approve2,
      promptCount [("A", "1")]
          (update_env_from_template [("A", "1")] [("B", "x")] "y" (fun _ => "")).1 approve2
        = 0) :=
  C3_idempotent [("A", "1")] [("B", "x")] (by decide) "y" (fun _ => "") (by decide)

/-- C6 counterexample: template `{A: "1", B: "2"}`, empty store, merge approved
with both defaults accepted.  The loop performs two separate file writes (one
`set_key` per addition), not one single save, and the store file passes through
the intermediate content `{A: "1"}` — different from both the pre-merge content
`{}` and the fully merged content `{A: "1", B: "2"}` — i.e. an observable
half-applied state, contradicting the claim's single-save atomicity. -/
theorem C6_counterexample :
    (update_env_from_template [("A", "1"), ("B", "2")] [] "y" (fun _ => "")).2.length = 2
  ∧ [("A", "1")] ∈ (update_env_from_template [("A", "1"), ("B", "2")] [] "y" (fun _ => "")).2
  ∧ [("A", "1")] ≠ ([] : Store)
  ∧ [("A", "1")] ≠ (update_env_from_template [("A", "1"), ("B", "2")] [] "y" (fun _ => "")).1
    := by decide

/-- C6 amended: when the merge is approved, each accepted addition and each
removal is applied by its own immediate file write — the number of writes
equals the number of additions plus the number of removals — and the store
content after the last write is the fully merged content (the final store the
reconciliation returns). -/
theorem C6_per_key_writes (template_values env_values : Store) (approve : String)
    (resp : String → String) (ha : pyLower approve = "y") :
    (update_env_from_template template_values env_values approve resp).2.length
      = (changes env_values template_values).length
        + (removed_keys env_values template_values).length
  ∧ (update_env_from_template template_values env_values approve resp).2.getLastD env_values
      = (update_env_from_template template_values env_values approve resp).1 := by
  by_cases hemp : ((changes env_values template_values).isEmpty
      && (removed_keys env_values template_values).isEmpty) = true
  · have hu : update_env_from_template template_values env_values approve resp
        = (env_values, []) := by
      simp only [update_env_from_template]
      rw [if_pos hemp]
    simp only [Bool.and_eq_true, List.isEmpty_iff] at hemp
    rw [hu, hemp.1, hemp.2]
    exact ⟨rfl, rfl⟩
  · have hu : update_env_from_template template_values env_values approve resp
        = ((applyRemovalsTrace
              (applyChangesTrace env_values (changes env_values template_values) resp).1
              (removed_keys env_values template_values)).1,
           (applyChangesTrace env_values (changes env_values template_values) resp).2
             ++ (applyRemovalsTrace
                  (applyChangesTrace env_values (changes env_values template_values) resp).1
                  (removed_keys env_values template_values)).2) := by
      simp only [update_env_from_template]
      rw [if_neg hemp, if_pos (show (pyLower approve == "y") = true by simp [ha])]
    rw [hu]
    constructor
    · rw [List.length_append, applyChangesTrace_snd_length, applyRemovalsTrace_snd_length]
    · rw [listGetLastD_append, applyChangesTrace_snd_getLastD, applyRemovalsTrace_snd_getLastD]

theorem C6_witness :
    (update_env_from_template [("A", "1"), ("B", "2")] [("C", "x")] "y" (fun _ => "z")).2.length
      = (changes [("C", "x")] [("A", "1"), ("B", "2")]).length
        + (removed_keys [("C", "x")] [("A", "1"), ("B", "2")]).length
  ∧ (update_env_from_template [("A", "1"), ("B", "2")] [("C", "x")] "y"
        (fun _ => "z")).2.getLastD [("C", "x")]
      = (update_env_from_template [("A", "1"), ("B", "2")] [("C", "x")] "y" (fun _ => "z")).1 :=
  C6_per_key_writes [("A", "1"), ("B", "2")] [("C", "x")] "y" (fun _ => "z") (by decide)

/-- C2 counterexample: with the template file absent, config.py lines 41-43
print an error and `return` — nothing propagates — and `Config.__init__`
continues: the instance IS constructed (`some ...`), its typed fields are
populated from the process environment (here all unset), and the
non-reconciled store file is left as it was. -/
theorem C2_counterexample :
    (config_init false [] (some [("K", "v")]) "n" "n" (fun _ => "") (fun _ => none)).map
        (fun p => (p.1.fast_llm_model, p.1.fast_token_limit, p.2))
      = some ("gpt-3.5-turbo", 4000, some [("K", "v")]) := by decide

/-- C2 amended: if the template file is absent, or the store file is absent
and the operator declines its creation, reconciliation returns early leaving
the store file exactly as it was and writing nothing — but no error
propagates: `Config.__init__` still runs to completion, constructing the
instance with typed fields populated from the non-reconciled process
environment (unless the unrelated `int(...)` parse raises). -/
theorem C2_no_propagation (templateExists : Bool) (template_values : Store)
    (envFile : Option Store) (createAnswer approve : String) (resp : String → String)
    (procEnv : PEnv)
    (h : templateExists = false ∨ (envFile = none ∧ pyLower createAnswer ≠ "y")) :
    update_env_checked templateExists template_values envFile createAnswer approve resp
      = (envFile, [])
  ∧ config_init templateExists template_values envFile createAnswer approve resp procEnv
      = (configInit procEnv).map (fun c => (c, envFile)) := by
  have h1 : update_env_checked templateExists template_values envFile createAnswer
      approve resp = (envFile, []) := by
    rcases h with hf | ⟨hn, hd⟩
    · simp [update_env_checked, hf]
    · subst hn
      cases templateExists
      · simp [update_env_checked]
      · have hb : (pyLower createAnswer == "y") = false := by
          rw [beq_eq_false_iff_ne]; exact hd
        simp [update_env_checked, hb]
  refine ⟨h1, ?_⟩
  simp [config_init, h1]

theorem C2_witness :
    update_env_checked false [("A", "1")] (some [("K", "v")]) "n" "n" (fun _ => "")
      = (some [("K", "v")], [])
  ∧ config_init false [("A", "1")] (some [("K", "v")]) "n" "n" (fun _ => "") (fun _ => none)
      = (configInit (fun _ => none)).map (fun c => (c, some [("K", "v")])) :=
  C2_no_propagation false [("A", "1")] (some [("K", "v")]) "n" "n" (fun _ => "")
    (fun _ => none) (Or.inl rfl)

/-- C7 counterexample: environment value `FAST_TOKEN_LIMIT=abc` does not parse
as an integer, so `int(...)` at config.py line 101 raises `ValueError` and
registry construction fails — the field does not silently take the documented
default 4000. -/
theorem C7_counterexample :
    configInit (fun k => if k = "FAST_TOKEN_LIMIT" then some "abc" else none) = none := by
  decide

/-- C7 amended: a stored value for either token limit that does not parse as
an integer makes `Config.__init__` raise instead of falling back to the
default; the documented default applies only when the key is absent. -/
theorem C7_int_parse_raises (env : PEnv) (s : String)
    (h : env "FAST_TOKEN_LIMIT" = some s ∨ env "SMART_TOKEN_LIMIT" = some s)
    (hbad : pyInt s = none) : configInit env = none := by
  unfold configInit
  rcases h with h | h
  · rw [h]
    simp [hbad]
  · cases hf : pyInt ((env "FAST_TOKEN_LIMIT").getD "4000") with
    | none => rfl
    | some a =>
      rw [h]
      simp [hbad]

theorem C7_witness :
    configInit (fun k => if k = "SMART_TOKEN_LIMIT" then some "8e3" else none) = none :=
  C7_int_parse_raises (fun k => if k = "SMART_TOKEN_LIMIT" then some "8e3" else none) "8e3"
    (by decide) (by decide)

/-- Field equations of a successfully constructed registry instance, read off
from `Config.__init__`. -/
theorem configInit_fields (env : PEnv) (c : Config) (h : configInit env = some c) :
    c.use_azure = (env "USE_AZURE" == some "True")
  ∧ c.openai_api_base
      = (if env "USE_AZURE" == some "True" then some (env "OPENAI_AZURE_API_BASE") else none)
  ∧ c.openai_api_version
      = (if env "USE_AZURE" == some "True" then some (env "OPENAI_AZURE_API_VERSION") else none)
  ∧ c.openai_deployment_id
      = (if env "USE_AZURE" == some "True" then some (env "OPENAI_AZURE_DEPLOYMENT_ID") else none)
  ∧ c.use_mac_os_tts = env "USE_MAC_OS_TTS"
  ∧ c.wipe_redis_on_start = ((env "WIPE_REDIS_ON_START").getD "True" == "True") := by
  unfold configInit at h
  cases hf : pyInt ((env "FAST_TOKEN_LIMIT").getD "4000") with
  | none => rw [hf] at h; cases h
  | some a =>
    rw [hf] at h
    cases hs : pyInt ((env "SMART_TOKEN_LIMIT").getD "8000") with
    | none => rw [hs] at h; cases h
    | some b =>
      rw [hs] at h
      cases Option.some.inj h
      exact ⟨rfl, rfl, rfl, rfl, rfl, rfl⟩

/-- The registry instance `Config.__init__` builds when every environment
variable is unset. -/
def emptyEnvSettings : Config where
  debug_mode := false
  continuous_mode := false
  speak_mode := false
  fast_llm_model := "gpt-3.5-turbo"
  smart_llm_model := "gpt-4"
  fast_token_limit := 4000
  smart_token_limit := 8000
  openai_api_key := none
  use_azure := false
  openai_api_base := none
  openai_api_version := none
  openai_deployment_id := none
  elevenlabs_api_key := none
  use_mac_os_tts := none
  google_api_key := none
  custom_search_engine_id := none
  pinecone_api_key := none
  pinecone_region := none
  image_provider := none
  huggingface_api_token := none
  user_agent_header :=
    [("User-Agent", "Mozilla/5.0 (Macintosh; Intel Mac OS X 10_15_4) AppleWebKit/537.36 (KHTML, like Gecko) Chrome/83.0.4103.97 Safari/537.36")]
  redis_host := "localhost"
  redis_port := "6379"
  redis_password := ""
  wipe_redis_on_start := true
  memory_index := "auto-gpt"
  memory_backend := "local"

/-- C8 counterexample: with `WIPE_REDIS_ON_START` absent the field is `true`
(its default string is `"True"`), where the claim requires `false` for an
absent key; and with `USE_MAC_OS_TTS=False` the field holds the raw string
`some "False"` (truthy in Python), not a boolean computed by comparison. -/
theorem C8_counterexample :
    (configInit (fun k => if k = "USE_MAC_OS_TTS" then some "False" else none)).map
        (fun c => (c.wipe_redis_on_start, c.use_mac_os_tts))
      = some (true, some "False") := by decide

/-- C8 amended: of the three fields, only `use_azure` matches the claim (true
iff the stored string equals `"True"`, false when absent).
`wipe_redis_on_start` also compares against `"True"` but on the
stored-or-default string with default `"True"`, so it is true when the key is
absent.  `use_mac_os_tts` is not computed by any comparison: line 118 assigns
the raw `os.getenv` result, overwriting line 117's `False`. -/
theorem C8_boolean_fields (env : PEnv) (c : Config) (h : configInit env = some c) :
    (c.use_azure = true ↔ env "USE_AZURE" = some "True")
  ∧ (env "USE_AZURE" = none → c.use_azure = false)
  ∧ (env "WIPE_REDIS_ON_START" = none → c.wipe_redis_on_start = true)
  ∧ (∀ s, env "WIPE_REDIS_ON_START" = some s →
        (c.wipe_redis_on_start = true ↔ s = "True"))
  ∧ c.use_mac_os_tts = env "USE_MAC_OS_TTS" := by
  obtain ⟨h1, -, -, -, h5, h6⟩ := configInit_fields env c h
  refine ⟨?_, ?_, ?_, ?_, h5⟩
  · rw [h1]; exact beq_iff_eq
  · intro hn; rw [h1, hn]; rfl
  · intro hn; rw [h6, hn]; rfl
  · intro s hsome; rw [h6, hsome]; simp

theorem C8_witness :
    (emptyEnvSettings.use_azure = true ↔ (none : Option String) = some "True")
  ∧ ((none : Option String) = none → emptyEnvSettings.use_azure = false)
  ∧ ((none : Option String) = none → emptyEnvSettings.wipe_redis_on_start = true)
  ∧ (∀ s, (none : Option String) = some s →
        (emptyEnvSettings.wipe_redis_on_start = true ↔ s = "True"))
  ∧ emptyEnvSettings.use_mac_os_tts = (none : Option String) :=
  C8_boolean_fields (fun _ => none) emptyEnvSettings (by decide)

/-- C9 counterexample: with `USE_AZURE` unset the flag is false and
`__init__` never assigns `openai_api_base`, `openai_api_version` or
`openai_deployment_id` (outer `none` = the attribute was never assigned):
reading any of them raises `AttributeError`, so no accessor can observe an
unset/empty default value, contrary to the claim. -/
theorem C9_counterexample :
    (configInit (fun _ => none)).map
        (fun c => (c.use_azure, c.openai_api_base, c.openai_api_version,
                   c.openai_deployment_id))
      = some (false, none, none, none) := by decide

/-- C9 amended: when `use_azure` is false at construction, the three
provider-specific sub-fields are not read from the store and are not assigned
at all — the attributes do not exist on the instance, and accessing them
raises `AttributeError` rather than observing a default. -/
theorem C9_azure_fields_unassigned (env : PEnv) (c : Config)
    (h : configInit env = some c) (hfalse : c.use_azure = false) :
    c.openai_api_base = none ∧ c.openai_api_version = none
  ∧ c.openai_deployment_id = none := by
  obtain ⟨h1, h2, h3, h4, -, -⟩ := configInit_fields env c h
  rw [h1] at hfalse
  rw [h2, h3, h4]
  simp [hfalse]

theorem C9_witness :
    emptyEnvSettings.openai_api_base = none
  ∧ emptyEnvSettings.openai_api_version = none
  ∧ emptyEnvSettings.openai_deployment_id = none :=
  C9_azure_fields_unassigned (fun _ => none) emptyEnvSettings (by decide) (by decide)
